import Mathlib

/-!
Verification development for the AtmosEye acquisition / fusion / alerting /
persistence pipeline (`src/iaqcalc.py`).

Modelling conventions:
* Python floats are modelled as exact rationals (`ℚ`); machine epsilon is not
  modelled.  Python `round` is round-half-to-even, modelled by `pyRound`.
* Python dictionaries with possibly-missing keys are modelled as structures of
  `Option ℚ` fields; `dict.get(k, d)` becomes `Option.getD`.
* `collections.deque(maxlen := C)` is modelled by `pushBounded C`: append on
  the right, evict from the left once the length would exceed `C`.
* Wall-clock times are rationals (epoch seconds) passed explicitly.
-/

/-- Floor of a rational, computably: the numerator divided by the denominator
using euclidean integer division (the denominator is positive, so this is the
mathematical floor).  Mirrors how CPython truncates when rounding. -/
def ratFloor (q : ℚ) : ℤ := q.num / (q.den : ℤ)

theorem ratFloor_eq (q : ℚ) : ratFloor q = ⌊q⌋ := by
  rw [Rat.floor_def]; rfl

/-- Python `round` on an exact rational: round half to even, as in
`round(fused_iaq)` and `round(voc_index)` in `src/iaqcalc.py`. -/
def pyRound (q : ℚ) : ℤ :=
  if q - ratFloor q < 1/2 then ratFloor q
  else if 1/2 < q - ratFloor q then ratFloor q + 1
  else if ratFloor q % 2 = 0 then ratFloor q else ratFloor q + 1

theorem le_pyRound (n : ℤ) (q : ℚ) (h : (n : ℚ) ≤ q) : n ≤ pyRound q := by
  have hf : n ≤ ⌊q⌋ := Int.le_floor.mpr h
  unfold pyRound
  rw [ratFloor_eq]
  split_ifs <;> omega

theorem pyRound_le (n : ℤ) (q : ℚ) (h : q ≤ (n : ℚ)) : pyRound q ≤ n := by
  have hf : ⌊q⌋ ≤ n := Int.floor_le_floor h |>.trans (le_of_eq (Int.floor_intCast n))
  unfold pyRound
  rw [ratFloor_eq]
  split_ifs with h1 h2 h3
  · exact hf
  · rcases lt_or_eq_of_le hf with hlt | he
    · omega
    · exfalso
      have hq : q ≤ (⌊q⌋ : ℚ) := by rw [he]; exact_mod_cast h
      have := Int.floor_le q
      linarith
  · exact hf
  · rcases lt_or_eq_of_le hf with hlt | he
    · omega
    · exfalso
      have hq : q ≤ (⌊q⌋ : ℚ) := by rw [he]; exact_mod_cast h
      have hfl := Int.floor_le q
      have hz : q - (⌊q⌋ : ℚ) = 0 := by linarith
      rw [hz] at h1
      norm_num at h1

theorem pyRound_nonneg (q : ℚ) (h : 0 ≤ q) : 0 ≤ pyRound q :=
  le_pyRound 0 q (by exact_mod_cast h)

/-- Arithmetic mean of a list of rationals (`np.mean`). -/
def mean (l : List ℚ) : ℚ := l.sum / (l.length : ℚ)

/-- Append on the right with eviction on the left once the length would exceed
the capacity `C`; this is exactly a `collections.deque(maxlen = C)` append. -/
def pushBounded {α : Type} (C : ℕ) (l : List α) (x : α) : List α :=
  if C < (l ++ [x]).length then (l ++ [x]).drop ((l ++ [x]).length - C) else l ++ [x]

theorem pushBounded_length {α : Type} (C : ℕ) (l : List α) (x : α) :
    (pushBounded C l x).length = min (l.length + 1) C := by
  unfold pushBounded
  split_ifs with h
  · simp only [List.length_drop, List.length_append, List.length_singleton] at *
    omega
  · simp only [List.length_append, List.length_singleton] at *
    omega

/-- The constant `HISTORY_BUFFER_SIZE = 43200` from `src/iaqcalc.py`. -/
def HISTORY_BUFFER_SIZE : ℕ := 43200

/-- `np.clip(x, lo, hi)`. -/
def clamp (x lo hi : ℚ) : ℚ := max lo (min x hi)

/-- Piecewise-linear interpolation of one EPA bracket, as computed in the loop
body of `_pm25_to_aqi`:
`round(((high_i - low_i) / (high_c - low_c)) * (c - low_c) + low_i)`. -/
def interp (lowc highc : ℚ) (lowi highi : ℤ) (c : ℚ) : ℤ :=
  pyRound (((highi : ℚ) - (lowi : ℚ)) / (highc - lowc) * (c - lowc) + (lowi : ℚ))

/-- The function `_pm25_to_aqi` of `src/iaqcalc.py`.  The Python loop over the
six-element breakpoint table is unrolled into a chain of conditionals checked
in the same order; falling through every bracket returns 500. -/
def pm25_to_aqi (pm : ℚ) : ℤ :=
  if pm < 0 then 0
  else if 0 ≤ pm ∧ pm ≤ 12 then interp 0 12 0 50 pm
  else if 121/10 ≤ pm ∧ pm ≤ 354/10 then interp (121/10) (354/10) 51 100 pm
  else if 355/10 ≤ pm ∧ pm ≤ 554/10 then interp (355/10) (554/10) 101 150 pm
  else if 555/10 ≤ pm ∧ pm ≤ 1504/10 then interp (555/10) (1504/10) 151 200 pm
  else if 1505/10 ≤ pm ∧ pm ≤ 2504/10 then interp (1505/10) (2504/10) 201 300 pm
  else if 2505/10 ≤ pm ∧ pm ≤ 5004/10 then interp (2505/10) (5004/10) 301 500 pm
  else 500

theorem interp_ge (lowc highc : ℚ) (lowi highi : ℤ) (c : ℚ)
    (hc : lowc < highc) (hi : lowi ≤ highi) (h1 : lowc ≤ c) :
    lowi ≤ interp lowc highc lowi highi c := by
  unfold interp
  apply le_pyRound
  have hnum : (0 : ℚ) ≤ (highi : ℚ) - (lowi : ℚ) := by exact_mod_cast sub_nonneg.mpr hi
  have hden : (0 : ℚ) < highc - lowc := sub_pos.mpr hc
  have : (0 : ℚ) ≤ ((highi : ℚ) - (lowi : ℚ)) / (highc - lowc) * (c - lowc) := by
    apply mul_nonneg (div_nonneg hnum (le_of_lt hden)) (sub_nonneg.mpr h1)
  linarith

theorem pm25_to_aqi_nonneg (pm : ℚ) : 0 ≤ pm25_to_aqi pm := by
  unfold pm25_to_aqi
  split_ifs with h0 h1 h2 h3 h4 h5 h6
  · exact le_refl 0
  · exact interp_ge 0 12 0 50 pm (by norm_num) (by norm_num) h1.1
  · calc (0 : ℤ) ≤ 51 := by norm_num
      _ ≤ _ := interp_ge _ _ 51 100 pm (by norm_num) (by norm_num) h2.1
  · calc (0 : ℤ) ≤ 101 := by norm_num
      _ ≤ _ := interp_ge _ _ 101 150 pm (by norm_num) (by norm_num) h3.1
  · calc (0 : ℤ) ≤ 151 := by norm_num
      _ ≤ _ := interp_ge _ _ 151 200 pm (by norm_num) (by norm_num) h4.1
  · calc (0 : ℤ) ≤ 201 := by norm_num
      _ ≤ _ := interp_ge _ _ 201 300 pm (by norm_num) (by norm_num) h5.1
  · calc (0 : ℤ) ≤ 301 := by norm_num
      _ ≤ _ := interp_ge _ _ 301 500 pm (by norm_num) (by norm_num) h6.1
  · norm_num

/-- The alert states (`alert_state` in `src/iaqcalc.py`). -/
inductive AState : Type
  | SAFE
  | WARNING
  | SMOKE
  | TEST
deriving DecidableEq

/-- Kinds of messages handed to `TelegramBot.queue_message` by the detector:
`trigger_alert` queues kind `alert`, `clear_alert` queues kind `recovery`.
The formatted message text is not modelled, only the queueing event. -/
inductive MsgKind : Type
  | alert
  | recovery
deriving DecidableEq

/-- The `user_settings` fields read by the smoke detector. -/
structure Settings : Type where
  enableSmokeDetection : Bool
  emergencyAlert : Bool
  alertThreshold : ℚ
deriving DecidableEq

/-- The mutable state touched by `SmokeDetector.check_conditions`: the global
`alert_active` / `alert_state` pair, the two rolling windows, the cooldown
clock, the TEST override flag, the queued notifications and the buzzer. -/
structure DetState : Type where
  alert_active : Bool
  alert_state : AState
  temp_history : List ℚ
  gas_history : List ℚ
  last_alert_time : ℚ
  test_alert_active : Bool
  messages : List MsgKind
  buzzer_on : Bool
deriving DecidableEq

/-- The fields of the `data` dictionary that `check_conditions` reads
(`final_data_point` in `continuous_sensor_reading`); any of them may be
missing, in which case the `.get` default applies. -/
structure Reading : Type where
  temperature : Option ℚ
  gas_resistance : Option ℚ
  pm25 : Option ℚ
  voc_index : Option ℚ
  iaq : Option ℚ
deriving DecidableEq

/-- `SmokeDetector.trigger_alert`: set `alert_active` and `alert_state`, queue
an alert notification, and start the siren when `emergencyAlert` is enabled or
the requested state is TEST (otherwise the buzzer is left as it was). -/
def trigger_alert (st : Settings) (state : AState) (s : DetState) : DetState :=
  { s with alert_active := true, alert_state := state,
           messages := s.messages ++ [MsgKind.alert],
           buzzer_on := if st.emergencyAlert = true ∨ state = AState.TEST then true else s.buzzer_on }

/-- `SmokeDetector.clear_alert`: reset to SAFE, queue a recovery notification,
stop the buzzer. -/
def clear_alert (s : DetState) : DetState :=
  { s with alert_active := false, alert_state := AState.SAFE,
           messages := s.messages ++ [MsgKind.recovery],
           buzzer_on := false }

/-- The gas-drop signal: mean of the first two window samples minus the mean
of the last two (`np.mean(list(...)[:2]) - np.mean(list(...)[-2:])`). -/
def gasChange (g : List ℚ) : ℚ := mean (g.take 2) - mean (g.drop (g.length - 2))

/-- The number of trigger reasons appended in one `check_conditions` cycle,
computed from the already-updated rolling windows: PM2.5 above 100 appends
one reason; VOC index above 250 or a gas drop above 25000 appends two reasons
at once; a temperature spike above 3.0 °C appends one reason. -/
def triggers (temp_h gas_h : List ℚ) (data : Reading) : ℕ :=
  (if data.pm25.getD 0 > 100 then 1 else 0)
  + (if data.voc_index.getD 0 > 250 ∨ gasChange gas_h > 25000 then 2 else 0)
  + (if temp_h.getLastD 0 - temp_h.headD 0 > 3 then 1 else 0)

/-- The detector state after appending the current temperature and gas samples
to the rolling windows (defaults 0 and 1e6, window capacity 5). -/
def withHist (s : DetState) (data : Reading) : DetState :=
  { s with temp_history := pushBounded 5 s.temp_history (data.temperature.getD 0),
           gas_history := pushBounded 5 s.gas_history (data.gas_resistance.getD 1000000) }

/-- The smoke trigger / clear block of `check_conditions`: fire when at least
two reasons hold, the 300 s cooldown has elapsed and no alert is active
(recording the trigger time); clear when no reason holds and an alert is
active in state SMOKE or WARNING. -/
def smokeStep (st : Settings) (tc : ℕ) (now : ℚ) (s : DetState) : DetState :=
  if 2 ≤ tc ∧ now - s.last_alert_time > 300 then
    (if s.alert_active = false then
       { trigger_alert st AState.SMOKE s with last_alert_time := now }
     else s)
  else if tc = 0 ∧ s.alert_active = true then
    (if s.alert_state = AState.SMOKE then clear_alert s
     else if s.alert_state = AState.WARNING then clear_alert s
     else s)
  else s

/-- The trailing IAQ-threshold block of `check_conditions`: with no active
alert, a high IAQ sets WARNING and a low IAQ reverts WARNING to SAFE. -/
def warningStep (st : Settings) (data : Reading) (s : DetState) : DetState :=
  if s.alert_active = false ∧ data.iaq.getD 0 > st.alertThreshold then
    (if s.alert_state ≠ AState.WARNING then { s with alert_state := AState.WARNING } else s)
  else if s.alert_active = false ∧ s.alert_state = AState.WARNING
          ∧ data.iaq.getD 0 < st.alertThreshold then
    { s with alert_state := AState.SAFE }
  else s

/-- `SmokeDetector.check_conditions` of `src/iaqcalc.py`, one cycle: the
disabled shortcut, the TEST override shortcut, the rolling-window appends, the
window-full guard, then the trigger/clear block followed by the IAQ warning
block. -/
def check_conditions (st : Settings) (s : DetState) (data : Reading) (now : ℚ) : DetState :=
  if st.enableSmokeDetection = false then
    (if s.alert_active = true ∧ s.alert_state = AState.SMOKE then clear_alert s else s)
  else if s.test_alert_active = true then
    { s with alert_active := true, alert_state := AState.TEST }
  else if (withHist s data).temp_history.length < 5 then withHist s data
  else
    warningStep st data
      (smokeStep st
        (triggers (withHist s data).temp_history (withHist s data).gas_history data)
        now (withHist s data))

theorem warningStep_of_active (st : Settings) (data : Reading) (s : DetState)
    (h : s.alert_active = true) : warningStep st data s = s := by
  unfold warningStep
  rw [if_neg, if_neg]
  · intro hc
    rw [h] at hc
    exact Bool.true_eq_false.mp hc.1
  · intro hc
    rw [h] at hc
    exact Bool.true_eq_false.mp hc.1

theorem warningStep_state_smoke (st : Settings) (data : Reading) (s : DetState)
    (h : (warningStep st data s).alert_state = AState.SMOKE) :
    s.alert_state = AState.SMOKE := by
  unfold warningStep at h
  split_ifs at h <;> simp_all

theorem clear_alert_state (s : DetState) : (clear_alert s).alert_state = AState.SAFE := rfl

/-- The firing path of `check_conditions`: with detection enabled, the TEST
override off, full rolling windows, at least two trigger reasons, the cooldown
elapsed and no active alert, the cycle ends in exactly the triggered state. -/
theorem check_conditions_fires (st : Settings) (s : DetState) (data : Reading) (now : ℚ)
    (henable : st.enableSmokeDetection = true)
    (htest : s.test_alert_active = false)
    (hlen : 4 ≤ s.temp_history.length)
    (htc : 2 ≤ triggers (withHist s data).temp_history (withHist s data).gas_history data)
    (hcool : now - s.last_alert_time > 300)
    (hactive : s.alert_active = false) :
    check_conditions st s data now =
      { trigger_alert st AState.SMOKE (withHist s data) with last_alert_time := now } := by
  have hfull : (withHist s data).temp_history.length = 5 := by
    show (pushBounded 5 s.temp_history (data.temperature.getD 0)).length = 5
    rw [pushBounded_length]
    omega
  unfold check_conditions
  rw [if_neg (by simp [henable]), if_neg (by simp [htest]), if_neg (by omega)]
  unfold smokeStep
  rw [if_pos ⟨htc, hcool⟩, if_pos (show (withHist s data).alert_active = false from hactive)]
  exact warningStep_of_active st data _ rfl

/-- C1: in any `check_conditions` cycle, from any detector state, the alert
state becomes SMOKE only when at least two trigger reasons fired this cycle,
more than 300 seconds have elapsed since the last recorded trigger time, and
no alert is already active; hence along every input sequence from the initial
state the alert state never becomes SMOKE with fewer than two triggers. -/
theorem smoke_transition_gated (st : Settings) (s : DetState) (data : Reading) (now : ℚ)
    (h : (check_conditions st s data now).alert_state = AState.SMOKE) :
    s.alert_state = AState.SMOKE ∨
      (2 ≤ triggers (withHist s data).temp_history (withHist s data).gas_history data
        ∧ now - s.last_alert_time > 300 ∧ s.alert_active = false) := by
  unfold check_conditions at h
  split_ifs at h with h1 h2 h3 h4
  · rw [clear_alert_state] at h
    exact AState.noConfusion h
  · exact Or.inl h
  · exact Or.inl h
  · have h5 := warningStep_state_smoke _ _ _ h
    unfold smokeStep at h5
    split_ifs at h5 with ha hb hc hd he
    · exact Or.inr ⟨ha.1, ha.2, by simpa using hb⟩
    · exact Or.inl h5
    · rw [clear_alert_state] at h5
      exact AState.noConfusion h5
    · rw [clear_alert_state] at h5
      exact AState.noConfusion h5
    · exact Or.inl h5
    · exact Or.inl h5

/-- Witness for C1: a concrete cycle (VOC index 300, full windows, cooldown
elapsed, no active alert) in which the state does become SMOKE, discharging
the hypothesis of the gating theorem. -/
theorem smoke_transition_gated_witness :
    (check_conditions ⟨true, false, 150⟩
        ⟨false, AState.SAFE, [25, 25, 25, 25], [50000, 50000, 50000, 50000], 0, false, [], false⟩
        ⟨some 25, some 50000, some 0, some 300, some 0⟩ 1000).alert_state = AState.SMOKE
    ∧ ((⟨false, AState.SAFE, [25, 25, 25, 25], [50000, 50000, 50000, 50000], 0, false, [], false⟩
          : DetState).alert_state = AState.SMOKE
        ∨ (2 ≤ triggers
              (withHist ⟨false, AState.SAFE, [25, 25, 25, 25], [50000, 50000, 50000, 50000], 0, false, [], false⟩
                 ⟨some 25, some 50000, some 0, some 300, some 0⟩).temp_history
              (withHist ⟨false, AState.SAFE, [25, 25, 25, 25], [50000, 50000, 50000, 50000], 0, false, [], false⟩
                 ⟨some 25, some 50000, some 0, some 300, some 0⟩).gas_history
              ⟨some 25, some 50000, some 0, some 300, some 0⟩
            ∧ (1000 : ℚ) - (0 : ℚ) > 300 ∧ false = false)) :=
  ⟨by with_unfolding_all decide,
   smoke_transition_gated ⟨true, false, 150⟩
     ⟨false, AState.SAFE, [25, 25, 25, 25], [50000, 50000, 50000, 50000], 0, false, [], false⟩
     ⟨some 25, some 50000, some 0, some 300, some 0⟩ 1000
     (by with_unfolding_all decide)⟩

/-- The cooldown path of `check_conditions`: with full windows, a nonzero
trigger count, an active alert and the cooldown not yet elapsed, the cycle
only appends to the rolling windows and changes nothing else. -/
theorem check_conditions_cooldown_noop (st : Settings) (s : DetState) (data : Reading) (now : ℚ)
    (henable : st.enableSmokeDetection = true)
    (htest : s.test_alert_active = false)
    (hlen : 4 ≤ s.temp_history.length)
    (htc : 2 ≤ triggers (withHist s data).temp_history (withHist s data).gas_history data)
    (hcool : ¬(now - s.last_alert_time > 300))
    (hactive : s.alert_active = true) :
    check_conditions st s data now = withHist s data := by
  have hfull : (withHist s data).temp_history.length = 5 := by
    show (pushBounded 5 s.temp_history (data.temperature.getD 0)).length = 5
    rw [pushBounded_length]
    omega
  unfold check_conditions
  rw [if_neg (by simp [henable]), if_neg (by simp [htest]), if_neg (by omega)]
  unfold smokeStep
  rw [if_neg (fun hco => hcool hco.2), if_neg (fun hz => by omega)]
  exact warningStep_of_active st data _ hactive

/-- C2: starting from a SAFE, not-alert-active detector state with full
windows and the 300 s cooldown elapsed, two consecutive cycles each carrying
at least two trigger reasons and evaluated 10 seconds apart produce exactly
one transition to SMOKE and queue exactly one alert notification: the first
cycle fires, the second changes neither the state, nor the queued messages,
nor the recorded trigger time. -/
theorem cooldown_single_transition (st : Settings) (s : DetState) (d1 d2 : Reading) (t1 : ℚ)
    (henable : st.enableSmokeDetection = true)
    (hstate : s.alert_state = AState.SAFE)
    (hactive : s.alert_active = false)
    (htest : s.test_alert_active = false)
    (hlen : 4 ≤ s.temp_history.length)
    (hcool : t1 - s.last_alert_time > 300)
    (htrig1 : 2 ≤ triggers (withHist s d1).temp_history (withHist s d1).gas_history d1)
    (htrig2 : 2 ≤ triggers (withHist (check_conditions st s d1 t1) d2).temp_history
                    (withHist (check_conditions st s d1 t1) d2).gas_history d2) :
    (check_conditions st s d1 t1).alert_state = AState.SMOKE
    ∧ (check_conditions st s d1 t1).alert_active = true
    ∧ (check_conditions st s d1 t1).messages = s.messages ++ [MsgKind.alert]
    ∧ (check_conditions st (check_conditions st s d1 t1) d2 (t1 + 10)).alert_state = AState.SMOKE
    ∧ (check_conditions st (check_conditions st s d1 t1) d2 (t1 + 10)).messages
        = s.messages ++ [MsgKind.alert]
    ∧ (check_conditions st (check_conditions st s d1 t1) d2 (t1 + 10)).last_alert_time = t1 := by
  have e1 : check_conditions st s d1 t1 =
      { trigger_alert st AState.SMOKE (withHist s d1) with last_alert_time := t1 } :=
    check_conditions_fires st s d1 t1 henable htest hlen htrig1 hcool hactive
  have hlen1 : 4 ≤ (check_conditions st s d1 t1).temp_history.length := by
    rw [e1]
    show 4 ≤ (pushBounded 5 s.temp_history (d1.temperature.getD 0)).length
    rw [pushBounded_length]
    omega
  have htest1 : (check_conditions st s d1 t1).test_alert_active = false := by
    rw [e1]; exact htest
  have hactive1 : (check_conditions st s d1 t1).alert_active = true := by
    rw [e1]; rfl
  have hlast1 : (check_conditions st s d1 t1).last_alert_time = t1 := by
    rw [e1]
  have hcool2 : ¬(t1 + 10 - (check_conditions st s d1 t1).last_alert_time > 300) := by
    rw [hlast1]
    intro hgt
    have : (10 : ℚ) > 300 := by linarith
    norm_num at this
  have e2 : check_conditions st (check_conditions st s d1 t1) d2 (t1 + 10) =
      withHist (check_conditions st s d1 t1) d2 :=
    check_conditions_cooldown_noop st (check_conditions st s d1 t1) d2 (t1 + 10)
      henable htest1 hlen1 htrig2 hcool2 hactive1
  refine ⟨by rw [e1]; rfl, hactive1, by rw [e1]; rfl, ?_, ?_, ?_⟩
  · rw [e2]
    show (check_conditions st s d1 t1).alert_state = AState.SMOKE
    rw [e1]
    rfl
  · rw [e2]
    show (check_conditions st s d1 t1).messages = s.messages ++ [MsgKind.alert]
    rw [e1]
    rfl
  · rw [e2]
    show (check_conditions st s d1 t1).last_alert_time = t1
    exact hlast1

/-- Concrete settings used by witnesses: detection on, emergency siren off,
threshold 150 (the defaults of `user_settings`). -/
def stW : Settings := ⟨true, false, 150⟩

/-- Concrete detector state used by witnesses: SAFE, no active alert, rolling
windows primed with four benign samples, cooldown clock at 0. -/
def sW : DetState :=
  ⟨false, AState.SAFE, [25, 25, 25, 25], [50000, 50000, 50000, 50000], 0, false, [], false⟩

/-- Concrete reading used by witnesses: steady temperature and gas, PM2.5 at
200 and VOC index at 300, both above their trigger thresholds. -/
def dW : Reading := ⟨some 25, some 50000, some 200, some 300, some 0⟩

/-- Witness for C2: with the concrete state `sW` and reading `dW`, two cycles
at times 1000 and 1010 yield one SMOKE transition, one queued alert message,
and an unchanged trigger time. -/
theorem cooldown_single_transition_witness :
    (check_conditions stW sW dW 1000).alert_state = AState.SMOKE
    ∧ (check_conditions stW sW dW 1000).alert_active = true
    ∧ (check_conditions stW sW dW 1000).messages = sW.messages ++ [MsgKind.alert]
    ∧ (check_conditions stW (check_conditions stW sW dW 1000) dW (1000 + 10)).alert_state
        = AState.SMOKE
    ∧ (check_conditions stW (check_conditions stW sW dW 1000) dW (1000 + 10)).messages
        = sW.messages ++ [MsgKind.alert]
    ∧ (check_conditions stW (check_conditions stW sW dW 1000) dW (1000 + 10)).last_alert_time
        = 1000 :=
  cooldown_single_transition stW sW dW dW 1000
    (by with_unfolding_all decide) (by with_unfolding_all decide) (by with_unfolding_all decide)
    (by with_unfolding_all decide) (by with_unfolding_all decide) (by with_unfolding_all decide)
    (by with_unfolding_all decide) (by with_unfolding_all decide)

/-- C10: whenever the combined condition (VOC index above 250 or gas drop
above 25000) holds in a cycle, exactly two trigger reasons are appended for
it, so the trigger count is two plus the PM2.5 and temperature-spike
contributions; in particular the count reaches the two-trigger gate, and with
full windows, elapsed cooldown and no active alert the cycle transitions to
SMOKE on the strength of this one condition alone. -/
theorem voc_or_gasdrop_fires_alone (st : Settings) (s : DetState) (data : Reading) (now : ℚ)
    (henable : st.enableSmokeDetection = true)
    (htest : s.test_alert_active = false)
    (hlen : 4 ≤ s.temp_history.length)
    (hcond : data.voc_index.getD 0 > 250 ∨ gasChange (withHist s data).gas_history > 25000)
    (hcool : now - s.last_alert_time > 300)
    (hactive : s.alert_active = false) :
    triggers (withHist s data).temp_history (withHist s data).gas_history data
      = (if data.pm25.getD 0 > 100 then 1 else 0) + 2
        + (if (withHist s data).temp_history.getLastD 0
              - (withHist s data).temp_history.headD 0 > 3 then 1 else 0)
    ∧ 2 ≤ triggers (withHist s data).temp_history (withHist s data).gas_history data
    ∧ (check_conditions st s data now).alert_state = AState.SMOKE := by
  have htr : triggers (withHist s data).temp_history (withHist s data).gas_history data
      = (if data.pm25.getD 0 > 100 then 1 else 0) + 2
        + (if (withHist s data).temp_history.getLastD 0
              - (withHist s data).temp_history.headD 0 > 3 then 1 else 0) := by
    unfold triggers
    rw [if_pos hcond]
  have h2 : 2 ≤ triggers (withHist s data).temp_history (withHist s data).gas_history data := by
    rw [htr]
    have hgen : ∀ a b : ℕ, 2 ≤ a + 2 + b := by omega
    exact hgen _ _
  refine ⟨htr, h2, ?_⟩
  rw [check_conditions_fires st s data now henable htest hlen h2 hcool hactive]
  rfl

/-- Concrete reading for the C10 witness: every signal benign except a gas
drop (window mean falls from 100000 to 60000, a 40000 drop). -/
def dropW : Reading := ⟨some 25, some 60000, some 0, some 0, some 0⟩

/-- Concrete detector state for the C10 witness: SAFE, windows primed with a
falling gas series. -/
def sDropW : DetState :=
  ⟨false, AState.SAFE, [25, 25, 25, 25], [100000, 100000, 60000, 60000], 0, false, [], false⟩

/-- Witness for C10: the gas-drop condition alone yields trigger count 2 and a
SMOKE transition in the concrete falling-gas scenario. -/
theorem voc_or_gasdrop_fires_alone_witness :
    triggers (withHist sDropW dropW).temp_history (withHist sDropW dropW).gas_history dropW
      = (if dropW.pm25.getD 0 > 100 then 1 else 0) + 2
        + (if (withHist sDropW dropW).temp_history.getLastD 0
              - (withHist sDropW dropW).temp_history.headD 0 > 3 then 1 else 0)
    ∧ 2 ≤ triggers (withHist sDropW dropW).temp_history (withHist sDropW dropW).gas_history dropW
    ∧ (check_conditions stW sDropW dropW 1000).alert_state = AState.SMOKE :=
  voc_or_gasdrop_fires_alone stW sDropW dropW 1000
    (by with_unfolding_all decide) (by with_unfolding_all decide) (by with_unfolding_all decide)
    (by with_unfolding_all decide) (by with_unfolding_all decide) (by with_unfolding_all decide)

/-- A raw sensor reading as assembled by `Sensor.get_data`: any field may be
missing when its sensor is absent or failed. -/
structure RawReading : Type where
  temperature : Option ℚ
  humidity : Option ℚ
  pressure : Option ℚ
  gas_resistance : Option ℚ
  pm1 : Option ℚ
  pm25 : Option ℚ
  pm10 : Option ℚ
deriving DecidableEq

/-- Truthiness of the raw-reading dictionary: an empty dict is falsy, so the
acquisition loop skips the cycle (`if raw_data:`). -/
def RawReading.isEmpty (r : RawReading) : Bool :=
  r.temperature.isNone && r.humidity.isNone && r.pressure.isNone && r.gas_resistance.isNone
    && r.pm1.isNone && r.pm25.isNone && r.pm10.isNone

/-- The persistent state of `IAQProcessor`: the EWMA baseline (None until the
first valid sample) and the five-sample rolling gas window. -/
structure ProcState : Type where
  ewma_baseline : Option ℚ
  gas_window : List ℚ
deriving DecidableEq

/-- The dictionary returned by `IAQProcessor.process` on a valid reading.
The `co2_equivalent` field is omitted: it needs the real exponent 1.5 and no
claim refers to it. -/
structure ProcResult : Type where
  iaq : ℤ
  aqi : ℤ
  voc_index : ℤ
deriving DecidableEq

/-- The gas window after the clamped append of this cycle
(`np.clip(gas_raw, 10000, 500000)` pushed into the five-sample deque). -/
def gasWindowAfter (p : ProcState) (gas : ℚ) : List ℚ :=
  pushBounded 5 p.gas_window (clamp gas 10000 500000)

/-- The EWMA baseline after this cycle: the smoothed window mean on the first
valid sample, then `0.2 * smoothed + 0.8 * baseline`. -/
def baselineAfter (p : ProcState) (gas : ℚ) : ℚ :=
  match p.ewma_baseline with
  | none => mean (gasWindowAfter p gas)
  | some b => (1/5) * mean (gasWindowAfter p gas) + (4/5) * b

/-- The VOC index of this cycle:
`min(500, (deviation / baseline) * 500 if baseline > 0 else 0)` with
`deviation = max(0, baseline - smoothed_gas)`. -/
def vocIndexAfter (p : ProcState) (gas : ℚ) : ℚ :=
  min 500
    (if 0 < baselineAfter p gas then
       max 0 (baselineAfter p gas - mean (gasWindowAfter p gas)) / baselineAfter p gas * 500
     else 0)

/-- `humidity_penalty = max(0, humidity - 70) * 2`. -/
def humidityPenalty (humidity : ℚ) : ℚ := max 0 (humidity - 70) * 2

/-- `temp_penalty`: `(18 - t) * 2` below 18 °C, `(t - 26) * 2` above 26 °C,
else 0. -/
def tempPenalty (t : ℚ) : ℚ :=
  if t < 18 then (18 - t) * 2 else if 26 < t then (t - 26) * 2 else 0

/-- `IAQProcessor.process` of `src/iaqcalc.py`: returns the empty result
(leaving all processor state untouched) when any of gas resistance, PM2.5,
temperature or humidity is missing; otherwise updates the window and the
baseline and computes the fused metrics. -/
def IAQProcess (p : ProcState) (r : RawReading) : ProcState × Option ProcResult :=
  match r.gas_resistance, r.pm25, r.temperature, r.humidity with
  | some gas, some pm, some temp, some hum =>
      (⟨some (baselineAfter p gas), gasWindowAfter p gas⟩,
       some ⟨min 500 (pyRound (vocIndexAfter p gas * (1/2) + (pm25_to_aqi pm : ℚ) * (1/2)
                        + humidityPenalty hum + tempPenalty temp)),
             pm25_to_aqi pm,
             pyRound (vocIndexAfter p gas)⟩)
  | _, _, _, _ => (p, none)

theorem vocIndexAfter_nonneg (p : ProcState) (gas : ℚ) : 0 ≤ vocIndexAfter p gas := by
  unfold vocIndexAfter
  apply le_min (by norm_num)
  split_ifs with hb
  · apply mul_nonneg (div_nonneg (le_max_left 0 _) (le_of_lt hb))
    norm_num
  · exact le_refl 0

theorem humidityPenalty_nonneg (h : ℚ) : 0 ≤ humidityPenalty h :=
  mul_nonneg (le_max_left 0 _) (by norm_num)

theorem tempPenalty_nonneg (t : ℚ) : 0 ≤ tempPenalty t := by
  unfold tempPenalty
  split_ifs with h1 h2 <;> nlinarith

/-- C7: on any reading carrying all four required fields, `process` returns a
result whose fused IAQ is exactly
`min(500, round(voc_index * 0.5 + pm25_aqi * 0.5 + humidity_penalty + temp_penalty))`
with the penalties of the specification, and that fused IAQ lies in [0, 500]. -/
theorem process_iaq_formula (p : ProcState) (pr p1 p10 : Option ℚ) (gas pm temp hum : ℚ) :
    ∃ q res,
      IAQProcess p ⟨some temp, some hum, pr, some gas, p1, some pm, p10⟩ = (q, some res)
      ∧ res.iaq = min 500 (pyRound (vocIndexAfter p gas * (1/2) + (pm25_to_aqi pm : ℚ) * (1/2)
                    + humidityPenalty hum + tempPenalty temp))
      ∧ 0 ≤ res.iaq ∧ res.iaq ≤ 500 := by
  refine ⟨_, _, rfl, rfl, ?_, min_le_left _ _⟩
  apply le_min (by norm_num)
  apply pyRound_nonneg
  have h1 := vocIndexAfter_nonneg p gas
  have h2 := pm25_to_aqi_nonneg pm
  have h2q : (0 : ℚ) ≤ (pm25_to_aqi pm : ℚ) := by exact_mod_cast h2
  have h3 := humidityPenalty_nonneg hum
  have h4 := tempPenalty_nonneg temp
  nlinarith

/-- One iteration of the acquisition loop body in `continuous_sensor_reading`
after a sensor read: skip when the read failed (`None`) or returned a falsy
empty dict; otherwise run the processor, merge raw and calculated fields into
the data point handed to `check_conditions`, and return the updated processor
and detector states.  Publication of the merged point into the shared store
is modelled separately (see the bounded-history theorems). -/
def cycleStep (st : Settings) (p : ProcState) (s : DetState) (raw : Option RawReading)
    (ts : ℚ) : ProcState × DetState :=
  match raw with
  | none => (p, s)
  | some r =>
      if r.isEmpty = true then (p, s)
      else
        ((IAQProcess p r).1,
         check_conditions st s
           ⟨r.temperature, r.gas_resistance, r.pm25,
            ((IAQProcess p r).2).map (fun c => (c.voc_index : ℚ)),
            ((IAQProcess p r).2).map (fun c => (c.iaq : ℚ))⟩ ts)

/-- C4, the part the code satisfies: `process` returns the empty result
(and leaves its own state untouched) whenever any of gas resistance, PM2.5,
temperature or humidity is missing, and the acquisition loop skips the cycle
(every piece of state unchanged) when the raw reading itself is absent or
entirely empty. -/
theorem process_empty_on_missing (p : ProcState) (r : RawReading)
    (h : r.gas_resistance = none ∨ r.pm25 = none ∨ r.temperature = none ∨ r.humidity = none) :
    IAQProcess p r = (p, none)
    ∧ (∀ st s ts, cycleStep st p s none ts = (p, s))
    ∧ ∀ st s ts r2, (r2 : RawReading).isEmpty = true → cycleStep st p s (some r2) ts = (p, s) := by
  refine ⟨?_, fun st s ts => rfl, fun st s ts r2 h2 => ?_⟩
  · unfold IAQProcess
    rcases h with h | h | h | h <;> rw [h] <;>
      rcases r.gas_resistance with _ | g <;> rcases r.pm25 with _ | pmv <;>
      rcases r.temperature with _ | tv <;> rcases r.humidity with _ | hv <;> simp_all
  · simp [cycleStep, h2]

/-- Counterexample for C4: a non-empty raw reading that carries only the
particulate fields.  `process` returns the empty result, yet the cycle is not
skipped: the detector state is evaluated on defaulted values and the alert
state changes (a pending WARNING falls back to SAFE). -/
theorem process_empty_cycle_not_skipped :
    (IAQProcess ⟨none, []⟩ ⟨none, none, none, none, some 5, some 50, some 60⟩).2 = none
    ∧ (⟨none, none, none, none, some 5, some 50, some 60⟩ : RawReading).isEmpty = false
    ∧ ((cycleStep stW ⟨none, []⟩
          ⟨false, AState.WARNING, [0, 0, 0, 0], [1000000, 1000000, 1000000, 1000000], 0, false, [], false⟩
          (some ⟨none, none, none, none, some 5, some 50, some 60⟩) 100).2).alert_state
        = AState.SAFE
    ∧ (⟨false, AState.WARNING, [0, 0, 0, 0], [1000000, 1000000, 1000000, 1000000], 0, false, [], false⟩
        : DetState).alert_state = AState.WARNING := by
  refine ⟨rfl, rfl, by with_unfolding_all decide, rfl⟩

/-- Witness for the amended C4 theorem: a reading missing its humidity field
yields the empty result and untouched processor state. -/
theorem process_empty_on_missing_witness :
    ((⟨some 22, none, some 1013, some 50000, some 5, some 50, some 60⟩ : RawReading).humidity
        = none)
    ∧ (IAQProcess ⟨some 50000, [50000]⟩
         ⟨some 22, none, some 1013, some 50000, some 5, some 50, some 60⟩
         = (⟨some 50000, [50000]⟩, none)
       ∧ (∀ st s ts, cycleStep st ⟨some 50000, [50000]⟩ s none ts = (⟨some 50000, [50000]⟩, s))
       ∧ ∀ st s ts r2, (r2 : RawReading).isEmpty = true →
           cycleStep st ⟨some 50000, [50000]⟩ s (some r2) ts = (⟨some 50000, [50000]⟩, s)) :=
  ⟨rfl, process_empty_on_missing ⟨some 50000, [50000]⟩
     ⟨some 22, none, some 1013, some 50000, some 5, some 50, some 60⟩
     (Or.inr (Or.inr (Or.inr rfl)))⟩

/-- C3: the PM2.5-to-AQI conversion is the EPA breakpoint interpolation with
`f(12.0) = 50`, `f(35.4) = 100`, `f(50.0) = 137`, `f(0) = 0`, `f(600) = 500`
and `f(-5) = 0`; every negative input maps to 0 and every input above the top
bracket (500.4) maps to 500. -/
theorem pm25_to_aqi_spec_points :
    pm25_to_aqi 12 = 50
    ∧ pm25_to_aqi (354/10) = 100
    ∧ pm25_to_aqi 50 = 137
    ∧ pm25_to_aqi 0 = 0
    ∧ pm25_to_aqi 600 = 500
    ∧ pm25_to_aqi (-5) = 0
    ∧ (∀ pm : ℚ, pm < 0 → pm25_to_aqi pm = 0)
    ∧ (∀ pm : ℚ, 5004/10 < pm → pm25_to_aqi pm = 500) := by
  refine ⟨by with_unfolding_all decide, by with_unfolding_all decide,
          by with_unfolding_all decide, by with_unfolding_all decide,
          by with_unfolding_all decide, by with_unfolding_all decide, ?_, ?_⟩
  · intro pm h
    unfold pm25_to_aqi
    rw [if_pos h]
  · intro pm h
    unfold pm25_to_aqi
    split_ifs with h0 h1 h2 h3 h4 h5 h6
    · exfalso; linarith
    · exfalso; linarith [h1.2]
    · exfalso; linarith [h2.2]
    · exfalso; linarith [h3.2]
    · exfalso; linarith [h4.2]
    · exfalso; linarith [h5.2]
    · exfalso; linarith [h6.2]
    · rfl

/-- Witness for C3: the universally quantified clauses applied at the
concrete inputs -3 (negative) and 501 (above the top bracket). -/
theorem pm25_to_aqi_spec_points_witness :
    ((-3 : ℚ) < 0 ∧ pm25_to_aqi (-3) = 0)
    ∧ ((5004/10 : ℚ) < 501 ∧ pm25_to_aqi 501 = 500) :=
  ⟨⟨by norm_num, pm25_to_aqi_spec_points.2.2.2.2.2.2.1 (-3) (by norm_num)⟩,
   ⟨by norm_num, pm25_to_aqi_spec_points.2.2.2.2.2.2.2 501 (by norm_num)⟩⟩

/-- C9: any PM2.5 value falling strictly inside one of the gaps between two
adjacent breakpoint brackets (such as 12.0 to 12.1) matches no bracket and is
converted to 500, the same value as inputs above the top bracket. -/
theorem pm25_to_aqi_gap_returns_500 (pm : ℚ)
    (h : (12 < pm ∧ pm < 121/10) ∨ (354/10 < pm ∧ pm < 355/10)
       ∨ (554/10 < pm ∧ pm < 555/10) ∨ (1504/10 < pm ∧ pm < 1505/10)
       ∨ (2504/10 < pm ∧ pm < 2505/10)) :
    pm25_to_aqi pm = 500 := by
  obtain ⟨ha, hb⟩ | ⟨ha, hb⟩ | ⟨ha, hb⟩ | ⟨ha, hb⟩ | ⟨ha, hb⟩ := h <;>
  · unfold pm25_to_aqi
    split_ifs with h0 h1 h2 h3 h4 h5 h6
    all_goals try rfl
    all_goals exfalso
    all_goals try casesm* _ ∧ _
    all_goals linarith

/-- Witness for C9: the gap value 12.05 is converted to 500. -/
theorem pm25_to_aqi_gap_returns_500_witness :
    ((12 : ℚ) < 241/20 ∧ (241/20 : ℚ) < 121/10) ∧ pm25_to_aqi (241/20) = 500 :=
  ⟨⟨by norm_num, by norm_num⟩,
   pm25_to_aqi_gap_returns_500 (241/20) (Or.inl ⟨by norm_num, by norm_num⟩)⟩

theorem foldl_pushBounded {α : Type} (C : ℕ) (hC : 0 < C) (xs : List α) :
    xs.foldl (pushBounded C) [] = xs.drop (xs.length - C) := by
  induction xs using List.reverseRecOn with
  | nil => simp
  | append_singleton xs x ih =>
    rw [List.foldl_append, List.foldl_cons, List.foldl_nil, ih]
    by_cases hlt : xs.length < C
    · have h1 : xs.length - C = 0 := Nat.sub_eq_zero_of_le (le_of_lt hlt)
      have h2 : (xs ++ [x]).length - C = 0 := by
        rw [List.length_append, List.length_singleton]
        omega
      rw [h1, List.drop_zero, h2, List.drop_zero]
      unfold pushBounded
      rw [if_neg]
      rw [List.length_append, List.length_singleton]
      omega
    · push_neg at hlt
      have hD : (xs.drop (xs.length - C)).length = C := by
        rw [List.length_drop]
        omega
      unfold pushBounded
      rw [if_pos (by rw [List.length_append, hD, List.length_singleton]; omega)]
      have h3 : (xs.drop (xs.length - C) ++ [x]).length - C = 1 := by
        rw [List.length_append, hD, List.length_singleton]
        omega
      have h4 : (xs ++ [x]).length - C = xs.length - C + 1 := by
        rw [List.length_append, List.length_singleton]
        omega
      rw [h3, h4]
      rw [List.drop_append_of_le_length (by omega : 1 ≤ (xs.drop (xs.length - C)).length)]
      rw [List.drop_append_of_le_length (by omega : xs.length - C + 1 ≤ xs.length)]
      rw [List.drop_drop]

/-- C6: the history buffer never exceeds its capacity of 43200 entries: after
any sequence of `C + k` appends into the empty buffer, the buffer holds
exactly the last `C` entries in their original append order — the oldest `k`
have been evicted and the length is exactly `C`. -/
theorem history_buffer_bounded {α : Type} (xs : List α) (k : ℕ)
    (h : xs.length = HISTORY_BUFFER_SIZE + k) :
    xs.foldl (pushBounded HISTORY_BUFFER_SIZE) [] = xs.drop k
    ∧ (xs.foldl (pushBounded HISTORY_BUFFER_SIZE) []).length = HISTORY_BUFFER_SIZE := by
  have e := foldl_pushBounded HISTORY_BUFFER_SIZE (by norm_num [HISTORY_BUFFER_SIZE]) xs
  have hk : xs.length - HISTORY_BUFFER_SIZE = k := by omega
  rw [e, hk]
  refine ⟨rfl, ?_⟩
  rw [List.length_drop]
  omega

/-- Witness for C6: 43201 appends leave exactly the last 43200 entries. -/
theorem history_buffer_bounded_witness :
    (List.replicate HISTORY_BUFFER_SIZE (0 : ℕ) ++ [1]).length = HISTORY_BUFFER_SIZE + 1
    ∧ ((List.replicate HISTORY_BUFFER_SIZE (0 : ℕ) ++ [1]).foldl
          (pushBounded HISTORY_BUFFER_SIZE) []
        = (List.replicate HISTORY_BUFFER_SIZE (0 : ℕ) ++ [1]).drop 1
      ∧ ((List.replicate HISTORY_BUFFER_SIZE (0 : ℕ) ++ [1]).foldl
            (pushBounded HISTORY_BUFFER_SIZE) []).length = HISTORY_BUFFER_SIZE) :=
  ⟨by rw [List.length_append, List.length_replicate, List.length_singleton],
   history_buffer_bounded (List.replicate HISTORY_BUFFER_SIZE (0 : ℕ) ++ [1]) 1
     (by rw [List.length_append, List.length_replicate, List.length_singleton])⟩

/-- A daily log partition as seen by `auto_maintenance_worker`: the year and
month directory names and the day taken from the file name with its
extensions stripped (the `os.path` mechanics of extracting these three
components are elided). -/
structure LogFile : Type where
  yearStr : String
  monthStr : String
  dayStr : String
deriving DecidableEq

/-- `days = int(retention_period[:-1])`, with the `except` fallback to the
documented default of 90 days when the prefix does not parse as an integer. -/
def parseDays (s : String) : ℤ := ((s.dropRight 1).toInt?).getD 90

/-- Length of a month under the Gregorian rules used by `datetime`. -/
def daysInMonth (y m : ℤ) : ℤ :=
  if m = 2 then (if y % 4 = 0 ∧ (y % 100 ≠ 0 ∨ y % 400 = 0) then 29 else 28)
  else if m = 4 ∨ m = 6 ∨ m = 9 ∨ m = 11 then 30
  else 31

/-- Absolute civil day number of a Gregorian date (days since 1970-01-01,
the standard era-based conversion).  Used to compare partition dates with the
cutoff `now - timedelta(days)`; for valid dates this comparison agrees with
the `datetime.date` comparison of the source. -/
def daysFromCivil (y m d : ℤ) : ℤ :=
  (if 0 ≤ (if m ≤ 2 then y - 1 else y) then (if m ≤ 2 then y - 1 else y)
   else (if m ≤ 2 then y - 1 else y) - 399) / 400 * 146097
  + (((if m ≤ 2 then y - 1 else y)
      - (if 0 ≤ (if m ≤ 2 then y - 1 else y) then (if m ≤ 2 then y - 1 else y)
         else (if m ≤ 2 then y - 1 else y) - 399) / 400 * 400) * 365
     + ((if m ≤ 2 then y - 1 else y)
        - (if 0 ≤ (if m ≤ 2 then y - 1 else y) then (if m ≤ 2 then y - 1 else y)
           else (if m ≤ 2 then y - 1 else y) - 399) / 400 * 400) / 4
     - ((if m ≤ 2 then y - 1 else y)
        - (if 0 ≤ (if m ≤ 2 then y - 1 else y) then (if m ≤ 2 then y - 1 else y)
           else (if m ≤ 2 then y - 1 else y) - 399) / 400 * 400) / 100
     + (153 * ((m + 9) % 12) + 2) / 5 + d - 1)
  - 719468

/-- `datetime(int(year_str), int(month_str), int(day_str))` from the per-file
try-block of `auto_maintenance_worker`: parse the three components as
integers, validate them as a calendar date exactly as the `datetime`
constructor does, and return the absolute day number. -/
def parseFileDate (f : LogFile) : Option ℤ :=
  match f.yearStr.toInt?, f.monthStr.toInt?, f.dayStr.toInt? with
  | some y, some m, some d =>
      if 1 ≤ y ∧ y ≤ 9999 ∧ 1 ≤ m ∧ m ≤ 12 ∧ 1 ≤ d ∧ d ≤ daysInMonth y m
      then some (daysFromCivil y m d) else none
  | _, _, _ => none

/-- Modelled from the spec: the `except` handler that closes the per-file
try-block of `auto_maintenance_worker` is missing from `src/iaqcalc.py` (the
file is truncated in the middle of line 524); section 4.6 of the spec states
that a file whose name cannot be parsed as a valid date is skipped and
logged, never deleted, so an unparsed date yields the decision `false`.  A
parsed date is deleted exactly when it is strictly before the cutoff
(`file_date.date() < cutoff_date.date()`, line 520 of the source). -/
def deleteDecision (cutoff : ℤ) (parsed : Option ℤ) : Bool :=
  match parsed with
  | none => false
  | some fd => decide (fd < cutoff)

/-- One run of `auto_maintenance_worker` deciding the fate of one partition:
a "forever" horizon with no manual-cleanup request skips deletion entirely;
otherwise the horizon is parsed (default 90 days), the cutoff is today minus
that many days, and the per-file decision applies. -/
def retentionDecision (retention : String) (runManual : Bool) (todayDays : ℤ)
    (f : LogFile) : Bool :=
  if retention = "forever" ∧ runManual = false then false
  else deleteDecision (todayDays - parseDays retention) (parseFileDate f)

/-- Counterexample to C5 as stated: when a manual cleanup has been requested,
a "forever" horizon does not skip deletion — the invalid string falls back to
the 90-day default and a partition dated 2026-07-01 is deleted on a run dated
2026-10-12. -/
theorem retention_forever_manual_deletes :
    retentionDecision ("forever") true (daysFromCivil 2026 10 12) ⟨"2026", "07", "01"⟩
      = true := by
  with_unfolding_all decide

/-- C5 amended: when the retention horizon is "forever" and no manual cleanup
has been requested, the worker deletes nothing — every partition, of any
date, is retained on every such run. -/
theorem retention_forever_keeps_all (today : ℤ) (f : LogFile) :
    retentionDecision ("forever") false today f = false := rfl

/-- C8: whenever the forever-and-not-manual skip does not apply, a partition
is deleted exactly when its parsed (year, month, day) date is strictly before
today minus the parsed number of retention days, and a file whose name does
not parse as a valid date is never deleted.  Concretely, under the "90d"
policy on 2026-10-12: the partition dated 91 days earlier (2026-07-13) is
deleted, the one dated 89 days earlier (2026-07-15) is retained, and a
non-date path is retained. -/
theorem retention_cutoff_exact :
    (∀ (ret : String) (runManual : Bool) (today : ℤ) (f : LogFile),
        ¬(ret = "forever" ∧ runManual = false) →
        (retentionDecision ret runManual today f = true
            ↔ ∃ fd, parseFileDate f = some fd ∧ fd < today - parseDays ret)
          ∧ (parseFileDate f = none → retentionDecision ret runManual today f = false))
    ∧ daysFromCivil 2026 7 13 = daysFromCivil 2026 10 12 - 91
    ∧ daysFromCivil 2026 7 15 = daysFromCivil 2026 10 12 - 89
    ∧ retentionDecision ("90d") false (daysFromCivil 2026 10 12) ⟨"2026", "07", "13"⟩ = true
    ∧ retentionDecision ("90d") false (daysFromCivil 2026 10 12) ⟨"2026", "07", "15"⟩ = false
    ∧ parseFileDate ⟨"system", "logs", "notes"⟩ = none
    ∧ retentionDecision ("90d") false (daysFromCivil 2026 10 12) ⟨"system", "logs", "notes"⟩
        = false := by
  refine ⟨?_, by with_unfolding_all decide, by with_unfolding_all decide,
          by with_unfolding_all decide, by with_unfolding_all decide,
          by with_unfolding_all decide, by with_unfolding_all decide⟩
  intro ret runManual today f h
  unfold retentionDecision
  rw [if_neg h]
  constructor
  · rcases hp : parseFileDate f with _ | fd <;> simp [deleteDecision]
  · intro hn
    rw [hn]
    rfl

/-- Witness for C8: the universally quantified clause applied to the "90d"
policy on day 20000 and the partition named 2024/01/02. -/
theorem retention_cutoff_exact_witness :
    ¬(("90d" : String) = "forever" ∧ false = false)
    ∧ ((retentionDecision ("90d") false 20000 ⟨"2024", "01", "02"⟩ = true
          ↔ ∃ fd, parseFileDate ⟨"2024", "01", "02"⟩ = some fd
              ∧ fd < 20000 - parseDays ("90d"))
        ∧ (parseFileDate ⟨"2024", "01", "02"⟩ = none →
            retentionDecision ("90d") false 20000 ⟨"2024", "01", "02"⟩ = false)) :=
  ⟨by with_unfolding_all decide,
   retention_cutoff_exact.1 ("90d") false 20000 ⟨"2024", "01", "02"⟩
     (by with_unfolding_all decide)⟩
